import Mathlib

/-!
Shallow embedding of the applied-jobs persistence and aggregation core of
`job-apply-app.py` (a FastAPI job bot).

The embedding models:
* the on-disk JSON store `applied_jobs.json` as a `FileState`
  (absent / unreadable-or-unparseable / a parsed list of records),
* `append_applied_record` and `load_applied_df` over that state,
* the in-memory `SEARCH_STORE` dict as an association list,
* the `/job_results`, `/auto_apply` and `/sync_sheet` route handlers as
  pure state-passing functions (the wall clock `datetime.now()` is an
  explicit counter threaded through, formatted by an arbitrary `tick`
  function; HTTP errors become `Except` errors carrying status and detail),
* the dashboard aggregation `df[col].value_counts()` (a pandas library
  call) as counting in first-occurrence order followed by a stable
  descending sort on counts.
-/

/-- One applied-job record, the dict written to `applied_jobs.json` with keys
`Applied On`, `Company`, `Job Title`, `Location`, `Keyword`. -/
structure AppliedRecord where
  appliedOn : String
  company : String
  jobTitle : String
  location : String
  keyword : String
deriving DecidableEq, Repr

/-- One job row produced by `jooble_search`, with keys
`title`, `company`, `location`, `salary`, `apply_link`. -/
structure SearchResult where
  title : String
  company : String
  location : String
  salary : String
  applyLink : String
deriving DecidableEq, Repr

/-- State of the `applied_jobs.json` file on disk:
`missing` = `os.path.exists` is false; `corrupt` = the file exists but
opening or `json.load` raises; `data recs` = the file exists and parses
as the JSON array `recs`. -/
inductive FileState where
  | missing : FileState
  | corrupt : FileState
  | data : List AppliedRecord → FileState
deriving DecidableEq, Repr

/-- Reading the existing collection inside the `try` block of
`append_applied_record`: `arr = []`, then `arr = json.load(f)` when the
file exists. `json.load` (or the read itself) raises on a corrupt file,
modelled as `Except.error`. -/
def readStore : FileState → Except String (List AppliedRecord)
  | FileState.missing => Except.ok []
  | FileState.corrupt => Except.error "failed to read or parse applied store"
  | FileState.data recs => Except.ok recs

/-- Body of the `try` block of `append_applied_record`:
read the existing array, `arr.append(rec)`, write the whole array back. -/
def append_body (fs : FileState) (rec : AppliedRecord) : Except String FileState :=
  match readStore fs with
  | Except.error e => Except.error e
  | Except.ok arr => Except.ok (FileState.data (arr ++ [rec]))

/-- The function `append_applied_record(rec)`: runs the read-modify-write
body under `try`; any exception is printed and swallowed, leaving the
file as it was (the append is silently dropped). -/
def append_applied_record (fs : FileState) (rec : AppliedRecord) : FileState :=
  match append_body fs rec with
  | Except.ok fs2 => fs2
  | Except.error _ => fs

/-- A sequence of single-threaded `append_applied_record` calls, in order. -/
def appendAll (fs : FileState) (recs : List AppliedRecord) : FileState :=
  recs.foldl append_applied_record fs

/-- The function `load_applied_df()`: an absent file gives an empty
DataFrame; a file that fails to open or parse is caught and also gives an
empty DataFrame; otherwise the rows are the parsed array in order. -/
def load_applied_df (fs : FileState) : List AppliedRecord :=
  match fs with
  | FileState.missing => []
  | FileState.corrupt => []
  | FileState.data recs => recs

/-- The module-level dict `SEARCH_STORE`, mapping a search id to the job
list of that search. Insertion conses at the front; lookup finds the most
recent binding, which models dict assignment and `dict.get`. -/
abbrev SearchStore := List (String × List SearchResult)

/-- The lookup `SEARCH_STORE.get(search_id)`. -/
def storeGet (cache : SearchStore) (k : String) : Option (List SearchResult) :=
  match cache.find? (fun p => p.1 == k) with
  | none => none
  | some p => some p.2

/-- The handler `job_results`: stores the freshly generated
`search_id = str(uuid.uuid4())` against the fetched job list and returns
the id (rendered into the results page). The uuid value is passed in as
`new_id`; its randomness lives outside the embedding. -/
def job_results (cache : SearchStore) (new_id : String) (jobs : List SearchResult) :
    String × SearchStore :=
  (new_id, (new_id, jobs) :: cache)

/-- The record built for one job inside the `auto_apply` loop: the shared
timestamp `ts`, the job's fields, and `"Keyword": ""`. -/
def bulkRecord (ts : String) (j : SearchResult) : AppliedRecord :=
  { appliedOn := ts
    company := j.company
    jobTitle := j.title
    location := j.location
    keyword := "" }

/-- All records built by the `auto_apply` loop over the session's jobs. -/
def bulkRecords (ts : String) (jobs : List SearchResult) : List AppliedRecord :=
  jobs.map (bulkRecord ts)

/-- The handler `auto_apply(search_id)`: looks the session up in
`SEARCH_STORE`; `if not jobs:` raises `HTTPException(400, "Search expired
or invalid.")` both when the id is absent (`None`) and when the stored
list is empty; otherwise captures `ts = datetime.now().strftime(...)` once
(one clock read: the counter advances by one), builds one record per job
with that shared timestamp and appends each to the store in order.
Returns the response (the produced records on success, the HTTP error
otherwise) together with the updated file state and clock. -/
def auto_apply (tick : Nat → String) (clock : Nat) (cache : SearchStore)
    (fs : FileState) (search_id : String) :
    Except (Nat × String) (List AppliedRecord) × FileState × Nat :=
  match storeGet cache search_id with
  | none => (Except.error (400, "Search expired or invalid."), fs, clock)
  | some [] => (Except.error (400, "Search expired or invalid."), fs, clock)
  | some (j :: js) =>
    let ts := tick clock
    let recs := bulkRecords ts (j :: js)
    (Except.ok recs, appendAll fs recs, clock + 1)

/-- The handler `manual_apply`: one record from the form fields, with the
current timestamp and an empty `Keyword`, appended once. -/
def manual_apply (tick : Nat → String) (clock : Nat) (fs : FileState)
    (title company loc : String) : FileState × Nat :=
  let r : AppliedRecord :=
    { appliedOn := tick clock
      company := company
      jobTitle := title
      location := loc
      keyword := "" }
  (append_applied_record fs r, clock + 1)

/-- Distinct values of `xs` in order of first occurrence, each paired with
its exact (case-sensitive, untrimmed) number of occurrences. This is the
counting half of the pandas call `df[col].value_counts()`: the hash table
creates one bucket per distinct value at its first occurrence and counts
with plain equality, no normalization. -/
def tally : List String → List (String × Nat)
  | [] => []
  | x :: xs => (x, (x :: xs).count x) :: (tally xs).filter (fun p => p.1 != x)

/-- Insert a pair into a count-descending list, before the first entry
whose count is less than or equal to the inserted count, so that an
element inserted from the left of the original order stays before its
ties. -/
def insertByCount (p : String × Nat) : List (String × Nat) → List (String × Nat)
  | [] => [p]
  | q :: rest => if q.2 ≤ p.2 then p :: q :: rest else q :: insertByCount p rest

/-- Stable insertion sort by count, descending: the sorting half of the
pandas call `df[col].value_counts()`, which orders buckets by descending
count and keeps ties in bucket (first-occurrence) order. -/
def sortByCountDesc (l : List (String × Nat)) : List (String × Nat) :=
  l.foldr insertByCount []

/-- Model of the pandas library call `df[col].value_counts()` on a column
of strings: frequency pairs sorted by count descending, ties kept in
first-occurrence order, values compared exactly. -/
def value_counts (xs : List String) : List (String × Nat) :=
  sortByCountDesc (tally xs)

/-- The `dashboard` handler's roles aggregation:
`df["Job Title"].value_counts()` over the loaded store. -/
def dashboard_roles (fs : FileState) : List (String × Nat) :=
  value_counts ((load_applied_df fs).map AppliedRecord.jobTitle)

/-- The `dashboard` handler's cities aggregation:
`df["Location"].value_counts()` over the loaded store. -/
def dashboard_cities (fs : FileState) : List (String × Nat) :=
  value_counts ((load_applied_df fs).map AppliedRecord.location)

/-- Outcome of a successful `sync_sheet` call: either the no-data JSON
body or the redirect to the dashboard. -/
inductive SyncResult where
  | noData : SyncResult
  | redirect : SyncResult
deriving DecidableEq, Repr

/-- The handler `sync_sheet()`: first checks the two pieces of external
configuration (`GOOGLE_SERVICE_ACCOUNT_JSON` and `GOOGLE_SHEET_URL`) and
raises `HTTPException(400, ...)` if either is unset; then checks the
optional library support `GS_ENABLED` and raises `HTTPException(500, ...)`
if absent; then loads the store, returns the no-data status on an empty
frame, and otherwise attempts the remote sync, whose success is an oracle
bit `syncOk` (failure raises a 500). -/
def sync_sheet (hasCreds hasUrl gsEnabled : Bool) (fs : FileState)
    (syncOk : Bool) : Except (Nat × String) SyncResult :=
  if !(hasCreds && hasUrl) then
    Except.error (400, "Google Sheets credentials or URL not configured.")
  else if !gsEnabled then
    Except.error (500, "gspread / oauth libraries not available.")
  else if (load_applied_df fs).isEmpty then
    Except.ok SyncResult.noData
  else if syncOk then
    Except.ok SyncResult.redirect
  else
    Except.error (500, "Google Sheets sync failed")

example : value_counts ["A", "A", "B"] = [("A", 2), ("B", 1)] := by decide
example : value_counts ["A", "B"] = [("A", 1), ("B", 1)] := by decide
example : value_counts ["Mumbai", "mumbai"] = [("Mumbai", 1), ("mumbai", 1)] := by decide
example : value_counts ["B", "A", "A"] = [("A", 2), ("B", 1)] := by decide

/-! ### Claims about error handling of the store and handlers -/

/-- Claim C5: for a session id not present in `SEARCH_STORE`, `auto_apply`
raises `HTTPException(400, "Search expired or invalid.")` before any store
write: the response is exactly that client error, the file state is
unchanged (zero appends) and the clock is never read. -/
theorem auto_apply_unknown_session (tick : Nat → String) (clock : Nat)
    (cache : SearchStore) (fs : FileState) (sid : String)
    (h : storeGet cache sid = none) :
    auto_apply tick clock cache fs sid =
      (Except.error (400, "Search expired or invalid."), fs, clock) := by
  simp [auto_apply, h]

/-- Witness for C5: the empty cache does not contain `"nonexistent"`. -/
theorem auto_apply_unknown_session_witness :
    auto_apply (fun n => toString n) 7 [] FileState.missing "nonexistent" =
      (Except.error (400, "Search expired or invalid."), FileState.missing, 7) :=
  auto_apply_unknown_session (fun n => toString n) 7 [] FileState.missing
    "nonexistent" rfl

/-- Claim C10: a session id that is present in `SEARCH_STORE` but maps to an
empty job list makes `auto_apply` raise the very same
`HTTPException(400, "Search expired or invalid.")` as an unknown id
(Python's `if not jobs:` is true for an empty list as well as for `None`),
again with zero store appends and no clock read. -/
theorem auto_apply_empty_session (tick : Nat → String) (clock : Nat)
    (cache : SearchStore) (fs : FileState) (sid : String)
    (h : storeGet cache sid = some []) :
    auto_apply tick clock cache fs sid =
      (Except.error (400, "Search expired or invalid."), fs, clock) := by
  simp [auto_apply, h]

/-- Witness for C10: a cached session `"s"` holding an empty job list. -/
theorem auto_apply_empty_session_witness :
    auto_apply (fun n => toString n) 7 [("s", [])] FileState.missing "s" =
      (Except.error (400, "Search expired or invalid."), FileState.missing, 7) :=
  auto_apply_empty_session (fun n => toString n) 7 [("s", [])]
    FileState.missing "s" rfl

/-- Claim C6: whenever the store file is in any state other than an
existing, parseable one — it does not exist, or opening/parsing it fails —
`load_applied_df` returns the empty history instead of raising. -/
theorem load_applied_df_failure_empty (fs : FileState)
    (h : ∀ recs : List AppliedRecord, fs ≠ FileState.data recs) :
    load_applied_df fs = [] := by
  match fs with
  | FileState.missing => rfl
  | FileState.corrupt => rfl
  | FileState.data recs => exact absurd rfl (h recs)

/-- Witness for C6: the corrupt file state is not a parsed data state, and
loading it yields the empty history. -/
theorem load_applied_df_failure_empty_witness :
    load_applied_df FileState.corrupt = [] :=
  load_applied_df_failure_empty FileState.corrupt (fun _ h => by cases h)

/-- Claim C7: whenever the read of the existing collection inside
`append_applied_record` fails (the body raises), the exception is caught:
the call returns normally with the file state unchanged, so the appended
record is silently dropped and the loaded history is unaffected. -/
theorem append_applied_record_swallows (fs : FileState) (r : AppliedRecord)
    (e : String) (h : append_body fs r = Except.error e) :
    append_applied_record fs r = fs ∧
      load_applied_df (append_applied_record fs r) = load_applied_df fs := by
  have h1 : append_applied_record fs r = fs := by
    unfold append_applied_record
    rw [h]
  exact ⟨h1, by rw [h1]⟩

/-- Witness for C7: appending to a corrupt store fails inside the body and
is swallowed. -/
theorem append_applied_record_swallows_witness :
    append_applied_record FileState.corrupt
        { appliedOn := "01-Jan-2025 10:00 AM", company := "Acme",
          jobTitle := "Data Analyst", location := "Mumbai", keyword := "" } =
      FileState.corrupt :=
  (append_applied_record_swallows FileState.corrupt
    { appliedOn := "01-Jan-2025 10:00 AM", company := "Acme",
      jobTitle := "Data Analyst", location := "Mumbai", keyword := "" }
    "failed to read or parse applied store" rfl).1

/-- Claim C8: `job_results` stores the freshly generated uuid against the
fetched job list; provided the uuid does not collide with a previously
issued id (uuid4 collisions being negligible), the returned id is distinct
from every key already in `SEARCH_STORE`, and looking the returned id up
returns exactly the stored job list. -/
theorem job_results_round_trip (cache : SearchStore) (new_id : String)
    (jobs : List SearchResult) (hfresh : storeGet cache new_id = none) :
    (job_results cache new_id jobs).1 ∉ cache.map Prod.fst ∧
      storeGet (job_results cache new_id jobs).2
          (job_results cache new_id jobs).1 = some jobs := by
  constructor
  · intro hmem
    obtain ⟨p, hp, hfst⟩ := List.mem_map.1 hmem
    have hnone : cache.find? (fun q => q.1 == new_id) = none := by
      unfold storeGet at hfresh
      rcases hfind : cache.find? (fun q => q.1 == new_id) with _ | q
      · exact hfind
      · rw [hfind] at hfresh
        cases hfresh
    have := List.find?_eq_none.1 hnone p hp
    simp only [job_results] at hfst
    exact this (by simp [hfst])
  · simp [job_results, storeGet]

/-- Witness for C8: a fresh id `"new"` against a cache holding `"old"`. -/
theorem job_results_round_trip_witness :
    ("new" : String) ∉ ([("old", ([] : List SearchResult))].map Prod.fst) ∧
      storeGet (job_results [("old", [])] "new"
          [{ title := "Data Analyst", company := "Acme", location := "Bengaluru",
             salary := "Not disclosed", applyLink := "#" }]).2 "new" =
        some [{ title := "Data Analyst", company := "Acme", location := "Bengaluru",
                salary := "Not disclosed", applyLink := "#" }] :=
  job_results_round_trip [("old", [])] "new"
    [{ title := "Data Analyst", company := "Acme", location := "Bengaluru",
       salary := "Not disclosed", applyLink := "#" }] rfl

/-- Claim C9: `sync_sheet` raises `HTTPException(400, ...)` whenever either
of the two configuration values is unset, raises `HTTPException(500, ...)`
when both are set but the optional gspread/oauth libraries are absent, and
when both failures apply the configuration check wins (400, not 500). -/
theorem sync_sheet_config_errors (hasCreds hasUrl gsEnabled syncOk : Bool)
    (fs : FileState) :
    ((hasCreds && hasUrl) = false →
        sync_sheet hasCreds hasUrl gsEnabled fs syncOk =
          Except.error (400, "Google Sheets credentials or URL not configured.")) ∧
      ((hasCreds && hasUrl) = true → gsEnabled = false →
        sync_sheet hasCreds hasUrl gsEnabled fs syncOk =
          Except.error (500, "gspread / oauth libraries not available.")) ∧
      ((hasCreds && hasUrl) = false → gsEnabled = false →
        sync_sheet hasCreds hasUrl gsEnabled fs syncOk =
          Except.error (400, "Google Sheets credentials or URL not configured.")) := by
  refine ⟨fun h => ?_, fun h hg => ?_, fun h _ => ?_⟩ <;>
    simp [sync_sheet, h, *]

/-- Witness for C9: a missing sheet URL yields the 400 even with the
libraries absent as well, and present configuration with absent libraries
yields the 500. -/
theorem sync_sheet_config_errors_witness :
    sync_sheet true false false FileState.missing true =
        Except.error (400, "Google Sheets credentials or URL not configured.") ∧
      sync_sheet true true false FileState.missing true =
        Except.error (500, "gspread / oauth libraries not available.") :=
  ⟨(sync_sheet_config_errors true false false true FileState.missing).2.2 rfl rfl,
    (sync_sheet_config_errors true true false true FileState.missing).2.1 rfl rfl⟩

/-! ### Claims about the bulk auto-apply -/

/-- Claim C2: when the session is found with a non-empty job list,
`auto_apply` succeeds, producing exactly one record per job, appending
exactly those records to the store in order, consuming exactly one clock
read (`clock + 1`: the timestamp is captured once before the loop, not
re-read per record), and stamping every produced record with that single
timestamp `tick clock`. -/
theorem auto_apply_shared_timestamp (tick : Nat → String) (clock : Nat)
    (cache : SearchStore) (fs : FileState) (sid : String)
    (jobs : List SearchResult) (hfound : storeGet cache sid = some jobs)
    (hne : jobs ≠ []) :
    ∃ recs : List AppliedRecord,
      auto_apply tick clock cache fs sid =
          (Except.ok recs, appendAll fs recs, clock + 1) ∧
        recs.length = jobs.length ∧
        (∀ r ∈ recs, r.appliedOn = tick clock) := by
  match jobs, hne with
  | j :: js, _ =>
    refine ⟨bulkRecords (tick clock) (j :: js), ?_, ?_, ?_⟩
    · simp [auto_apply, hfound]
    · simp [bulkRecords]
    · intro r hr
      obtain ⟨jb, _, rfl⟩ := List.mem_map.1 hr
      rfl

/-- Witness for C2: a session with three jobs yields three records, one
clock advance and one shared timestamp. -/
theorem auto_apply_shared_timestamp_witness :
    ∃ recs : List AppliedRecord,
      auto_apply (fun n => toString n) 5
          [("s", [{ title := "Data Analyst", company := "Acme",
                    location := "Bengaluru", salary := "₹10–15 LPA",
                    applyLink := "https://example.com/1" },
                  { title := "BI Analyst", company := "InsightWorks",
                    location := "Mumbai", salary := "Not disclosed",
                    applyLink := "https://example.com/2" },
                  { title := "Data Analyst", company := "Globex",
                    location := "Pune", salary := "Not disclosed",
                    applyLink := "https://example.com/3" }])]
          FileState.missing "s" =
          (Except.ok recs, appendAll FileState.missing recs, 6) ∧
        recs.length = 3 ∧
        (∀ r ∈ recs, r.appliedOn = toString 5) := by
  obtain ⟨recs, h1, h2, h3⟩ :=
    auto_apply_shared_timestamp (fun n => toString n) 5
      [("s", [{ title := "Data Analyst", company := "Acme",
                location := "Bengaluru", salary := "₹10–15 LPA",
                applyLink := "https://example.com/1" },
              { title := "BI Analyst", company := "InsightWorks",
                location := "Mumbai", salary := "Not disclosed",
                applyLink := "https://example.com/2" },
              { title := "Data Analyst", company := "Globex",
                location := "Pune", salary := "Not disclosed",
                applyLink := "https://example.com/3" }])]
      FileState.missing "s" _ rfl (by simp)
  exact ⟨recs, h1, h2, h3⟩

/-- Claim C1 counterexample: the claim says the records produced by the
bulk apply carry the search keyword (here `"data"`), but `auto_apply`
takes no keyword at all and hardcodes `"Keyword": ""`: for a session
produced by a `"data"` search, the produced record's keyword field is the
empty string, which differs from `"data"`. -/
theorem auto_apply_keyword_cex :
    (auto_apply (fun _ => "t0") 0
        [("s", [{ title := "Data Analyst", company := "Acme",
                  location := "Bengaluru", salary := "Not disclosed",
                  applyLink := "#" }])]
        FileState.missing "s").1 =
      Except.ok [{ appliedOn := "t0", company := "Acme",
                   jobTitle := "Data Analyst", location := "Bengaluru",
                   keyword := "" }] ∧
    ("" : String) ≠ "data" := by
  refine ⟨rfl, ?_⟩
  decide

/-- Claim C1 (amended): for every session containing at least one job,
`auto_apply` produces one record per job, in session order, whose keyword
field is always the empty string — the code never records the search
keyword, for bulk applies as for manual ones. -/
theorem auto_apply_keyword_empty (tick : Nat → String) (clock : Nat)
    (cache : SearchStore) (fs : FileState) (sid : String)
    (jobs : List SearchResult) (hfound : storeGet cache sid = some jobs)
    (hne : jobs ≠ []) :
    ∃ recs : List AppliedRecord,
      (auto_apply tick clock cache fs sid).1 = Except.ok recs ∧
        recs.map AppliedRecord.jobTitle = jobs.map SearchResult.title ∧
        (∀ r ∈ recs, r.keyword = "") := by
  match jobs, hne with
  | j :: js, _ =>
    refine ⟨bulkRecords (tick clock) (j :: js), ?_, ?_, ?_⟩
    · simp [auto_apply, hfound]
    · simp [bulkRecords, bulkRecord]
    · intro r hr
      obtain ⟨jb, _, rfl⟩ := List.mem_map.1 hr
      rfl

/-- Witness for C1 (amended): a two-job session yields two records with
the session's titles and empty keywords. -/
theorem auto_apply_keyword_empty_witness :
    ∃ recs : List AppliedRecord,
      (auto_apply (fun _ => "t1") 0
          [("sess", [{ title := "Data Analyst", company := "Acme",
                       location := "Bengaluru", salary := "Not disclosed",
                       applyLink := "#" },
                     { title := "BI Analyst", company := "InsightWorks",
                       location := "Mumbai", salary := "Not disclosed",
                       applyLink := "#" }])]
          FileState.missing "sess").1 = Except.ok recs ∧
        recs.map AppliedRecord.jobTitle = ["Data Analyst", "BI Analyst"] ∧
        (∀ r ∈ recs, r.keyword = "") := by
  obtain ⟨recs, h1, h2, h3⟩ :=
    auto_apply_keyword_empty (fun _ => "t1") 0
      [("sess", [{ title := "Data Analyst", company := "Acme",
                   location := "Bengaluru", salary := "Not disclosed",
                   applyLink := "#" },
                 { title := "BI Analyst", company := "InsightWorks",
                   location := "Mumbai", salary := "Not disclosed",
                   applyLink := "#" }])]
      FileState.missing "sess" _ rfl (by simp)
  exact ⟨recs, h1, h2.trans (by rfl), h3⟩

/-! ### Claims about append-then-load -/

/-- Claim C3 counterexample: from the corrupt prior file state the append
is silently dropped, so a subsequent load does not return the previously
stored records followed by the appended one — the claim fails for the
unreadable prior store state. -/
theorem append_then_load_cex :
    load_applied_df (appendAll FileState.corrupt
        [{ appliedOn := "t1", company := "Acme", jobTitle := "Data Analyst",
           location := "Mumbai", keyword := "" }]) ≠
      load_applied_df FileState.corrupt ++
        [{ appliedOn := "t1", company := "Acme", jobTitle := "Data Analyst",
           location := "Mumbai", keyword := "" }] := by
  simp [appendAll, append_applied_record, append_body, readStore,
    load_applied_df]

/-- Claim C3 (amended): starting from any prior store state whose existing
collection is readable (the file is absent or parses), appending N records
in order and then loading returns all previously stored records followed
by those N records, in insertion order. -/
theorem append_then_load (rs : List AppliedRecord) (fs : FileState)
    (h : fs ≠ FileState.corrupt) :
    load_applied_df (appendAll fs rs) = load_applied_df fs ++ rs := by
  induction rs generalizing fs with
  | nil => simp [appendAll]
  | cons r rs ih =>
    match fs, h with
    | FileState.missing, _ =>
      have h2 := ih (FileState.data [r]) (by intro hc; cases hc)
      simpa [appendAll, append_applied_record, append_body, readStore,
        load_applied_df] using h2
    | FileState.data arr, _ =>
      have h2 := ih (FileState.data (arr ++ [r])) (by intro hc; cases hc)
      simp only [appendAll, List.foldl_cons] at h2 ⊢
      rw [show append_applied_record (FileState.data arr) r =
            FileState.data (arr ++ [r]) from rfl]
      rw [h2]
      simp [load_applied_df]

/-- Witness for C3 (amended): two records appended to the absent-file
state load back in order. -/
theorem append_then_load_witness :
    load_applied_df (appendAll FileState.missing
        [{ appliedOn := "t1", company := "Acme", jobTitle := "Data Analyst",
           location := "Mumbai", keyword := "" },
         { appliedOn := "t2", company := "InsightWorks", jobTitle := "BI Analyst",
           location := "Pune", keyword := "" }]) =
      load_applied_df FileState.missing ++
        [{ appliedOn := "t1", company := "Acme", jobTitle := "Data Analyst",
           location := "Mumbai", keyword := "" },
         { appliedOn := "t2", company := "InsightWorks", jobTitle := "BI Analyst",
           location := "Pune", keyword := "" }] :=
  append_then_load
    [{ appliedOn := "t1", company := "Acme", jobTitle := "Data Analyst",
       location := "Mumbai", keyword := "" },
     { appliedOn := "t2", company := "InsightWorks", jobTitle := "BI Analyst",
       location := "Pune", keyword := "" }]
    FileState.missing (by intro hc; cases hc)

/-! ### Aggregation helper lemmas -/

theorem sortByCountDesc_cons (p : String × Nat) (l : List (String × Nat)) :
    sortByCountDesc (p :: l) = insertByCount p (sortByCountDesc l) := rfl

theorem mem_insertByCount (p q : String × Nat) (l : List (String × Nat)) :
    q ∈ insertByCount p l ↔ q = p ∨ q ∈ l := by
  induction l with
  | nil => simp [insertByCount]
  | cons x xs ih =>
    by_cases h : x.2 ≤ p.2
    · simp only [insertByCount, if_pos h, List.mem_cons]
    · simp only [insertByCount, if_neg h, List.mem_cons, ih]
      tauto

theorem pairwise_insertByCount (p : String × Nat) (l : List (String × Nat))
    (hl : l.Pairwise (fun a b => b.2 ≤ a.2)) :
    (insertByCount p l).Pairwise (fun a b => b.2 ≤ a.2) := by
  induction l with
  | nil => simp [insertByCount]
  | cons x xs ih =>
    rw [List.pairwise_cons] at hl
    by_cases h : x.2 ≤ p.2
    · simp only [insertByCount, if_pos h]
      refine List.pairwise_cons.2 ⟨?_, List.pairwise_cons.2 hl⟩
      intro b hb
      rcases List.mem_cons.1 hb with rfl | hb'
      · exact h
      · exact le_trans (hl.1 b hb') h
    · simp only [insertByCount, if_neg h]
      refine List.pairwise_cons.2 ⟨?_, ih hl.2⟩
      intro b hb
      rcases (mem_insertByCount p b xs).1 hb with rfl | hb'
      · exact Nat.le_of_lt (Nat.lt_of_not_le h)
      · exact hl.1 b hb'

theorem filter_insertByCount (p : String × Nat) (c : Nat)
    (l : List (String × Nat)) :
    (insertByCount p l).filter (fun q => q.2 == c) =
      (p :: l).filter (fun q => q.2 == c) := by
  induction l with
  | nil => rfl
  | cons x xs ih =>
    by_cases h : x.2 ≤ p.2
    · simp only [insertByCount, if_pos h]
    · simp only [insertByCount, if_neg h, List.filter_cons, ih]
      by_cases hx : x.2 = c <;> by_cases hp : p.2 = c
      · omega
      all_goals simp [hx, hp]

theorem pairwise_sortByCountDesc (l : List (String × Nat)) :
    (sortByCountDesc l).Pairwise (fun a b => b.2 ≤ a.2) := by
  induction l with
  | nil => simp [sortByCountDesc]
  | cons p xs ih => exact pairwise_insertByCount p _ ih

theorem filter_sortByCountDesc (c : Nat) (l : List (String × Nat)) :
    (sortByCountDesc l).filter (fun q => q.2 == c) =
      l.filter (fun q => q.2 == c) := by
  induction l with
  | nil => rfl
  | cons p xs ih =>
    simp only [sortByCountDesc_cons, filter_insertByCount, List.filter_cons, ih]

theorem mem_sortByCountDesc (l : List (String × Nat)) (q : String × Nat) :
    q ∈ sortByCountDesc l ↔ q ∈ l := by
  induction l with
  | nil => simp [sortByCountDesc]
  | cons p xs ih =>
    rw [sortByCountDesc_cons, mem_insertByCount]
    simp [ih]

theorem mem_tally (xs : List String) (p : String × Nat) :
    p ∈ tally xs ↔ p.1 ∈ xs ∧ p.2 = xs.count p.1 := by
  obtain ⟨a, n⟩ := p
  induction xs with
  | nil => simp [tally]
  | cons x xs ih =>
    by_cases hax : a = x
    · subst hax
      simp [tally, ih, Prod.mk.injEq]
    · simp [tally, ih, hax, Prod.mk.injEq, List.count_cons_of_ne hax]

theorem pairwise_indexOf_tally (xs : List String) :
    ((tally xs).map Prod.fst).Pairwise
      (fun a b => xs.indexOf a < xs.indexOf b) := by
  induction xs with
  | nil => simp [tally]
  | cons x xs ih =>
    simp only [tally, List.map_cons]
    refine List.pairwise_cons.2 ⟨?_, ?_⟩
    · intro b hb
      obtain ⟨p, hp, rfl⟩ := List.mem_map.1 hb
      have hne : p.1 ≠ x := by
        have := (List.mem_filter.1 hp).2
        simpa using this
      rw [List.indexOf_cons_self, List.indexOf_cons_ne _ (Ne.symm hne)]
      exact Nat.succ_pos _
    · have hsub : List.Sublist
          (((tally xs).filter (fun p => p.1 != x)).map Prod.fst)
          ((tally xs).map Prod.fst) :=
        (List.filter_sublist _).map _
      refine List.Pairwise.imp_of_mem ?_ (List.Pairwise.sublist hsub ih)
      intro a b ha hb hab
      obtain ⟨pa, hpa, rfl⟩ := List.mem_map.1 ha
      obtain ⟨pb, hpb, rfl⟩ := List.mem_map.1 hb
      have hax : pa.1 ≠ x := by
        have := (List.mem_filter.1 hpa).2
        simpa using this
      have hbx : pb.1 ≠ x := by
        have := (List.mem_filter.1 hpb).2
        simpa using this
      rw [List.indexOf_cons_ne _ (Ne.symm hax),
        List.indexOf_cons_ne _ (Ne.symm hbx)]
      omega

/-- Claim C4: the dashboard aggregation `value_counts` returns
(value, count) pairs sorted by count descending; ties are broken by first
occurrence: within every count class the order is exactly that of `tally`,
whose keys are pairwise ordered by their first-occurrence index in the
record set; and the buckets are the exact, unnormalized values with their
exact case-sensitive occurrence counts. -/
theorem value_counts_spec (xs : List String) :
    (value_counts xs).Pairwise (fun p q => q.2 ≤ p.2) ∧
      (∀ c : Nat, (value_counts xs).filter (fun p => p.2 == c) =
        (tally xs).filter (fun p => p.2 == c)) ∧
      ((tally xs).map Prod.fst).Pairwise
        (fun a b => xs.indexOf a < xs.indexOf b) ∧
      (∀ p : String × Nat, p ∈ value_counts xs ↔
        p.1 ∈ xs ∧ p.2 = xs.count p.1) :=
  ⟨pairwise_sortByCountDesc _,
    fun c => filter_sortByCountDesc c _,
    pairwise_indexOf_tally xs,
    fun p => (mem_sortByCountDesc _ p).trans (mem_tally xs p)⟩
